import Mathlib

/-!
Verification development for the document retrieval and answer-composition
engine of the business_brain_backend repository
(`app/services/search_service.py`, `app/services/semantic_search_service.py`,
`app/api/documents.py`).

External collaborators (the embedding function, the `match_documents`
nearest-neighbor RPC, and the grounded-completion generator) are modelled as
oracle parameters; supabase table reads are modelled as pure lookups over an
explicit in-memory database value.  Python floats are modelled as rationals,
Python dicts with optional keys as records with `Option` fields, and raised
exceptions as `Except` errors.
-/

/-! ### Python-semantics string and list primitives -/

/-- Occurrence counting for a non-empty needle, scanning left to right and
skipping past each match (Python's non-overlapping `str.count`).  The fuel
argument bounds the scan length so the recursion is structural; every
recursive call consumes at least one character of the haystack, so fuel equal
to the haystack length is always enough. -/
def countOccsGo (needle : List Char) : Nat → List Char → Nat
  | _, [] => 0
  | 0, _ :: _ => 0
  | fuel + 1, c :: rest =>
    if needle.isPrefixOf (c :: rest) then
      1 + countOccsGo needle fuel (rest.drop (needle.length - 1))
    else
      countOccsGo needle fuel rest

/-- Non-overlapping occurrence count of a non-empty needle in a haystack. -/
def countOccs (needle hay : List Char) : Nat :=
  countOccsGo needle hay.length hay

/-- Python `hay.count(needle)`: non-overlapping substring occurrence count;
an empty needle counts `len(hay) + 1` times. -/
def pyCount (needle hay : List Char) : Nat :=
  if needle = [] then hay.length + 1 else countOccs needle hay

/-- Python's substring containment test `needle in hay`, expressed through the
occurrence count (a needle occurs somewhere iff its count is positive). -/
def pyIn (needle hay : String) : Bool :=
  decide (0 < pyCount needle.data hay.data)

/-- Helper for `pySplitWs`: accumulate the current word (reversed) and emit it
at each whitespace boundary. -/
def splitWsGo : List Char → List Char → List String
  | acc, [] => if acc = [] then [] else [⟨acc.reverse⟩]
  | acc, c :: rest =>
    if c.isWhitespace then
      if acc = [] then splitWsGo [] rest
      else (⟨acc.reverse⟩ : String) :: splitWsGo [] rest
    else splitWsGo (c :: acc) rest

/-- Python `s.split()` with no separator argument: split on whitespace runs,
dropping empty pieces. -/
def pySplitWs (s : String) : List String :=
  splitWsGo [] s.data

/-- Python `s.lower()`, character by character. -/
def pyLower (s : String) : String :=
  ⟨s.data.map Char.toLower⟩

/-- Python slice `xs[:limit]` for an `int` limit, including the negative-limit
behavior (count from the end, clamped at zero). -/
def pyTake {α : Type} (limit : Int) (xs : List α) : List α :=
  if 0 ≤ limit then xs.take limit.toNat
  else xs.take ((xs.length : Int) + limit).toNat

/-- Python `s[:n] + "..." if len(s) > n else s` (lengths and slices count code
points, i.e. characters). -/
def pyTruncate (n : Nat) (s : String) : String :=
  if n < s.data.length then (⟨s.data.take n⟩ : String) ++ "..." else s

/-- Helper for `pyStrTitle`: carries whether the previous character was
alphabetic. -/
def titleCaseGo : Bool → List Char → List Char
  | _, [] => []
  | prevAlpha, c :: rest =>
    let c' := if c.isAlpha then (if prevAlpha then c.toLower else c.toUpper) else c
    c' :: titleCaseGo c.isAlpha rest

/-- Python `str.title()`: uppercase each letter that begins an alphabetic run,
lowercase the other letters. -/
def pyStrTitle (s : String) : String :=
  ⟨titleCaseGo false s.data⟩

/-- Python `min(a, b)` on rationals (returns the first argument on ties),
phrased with the executable comparison `Rat.blt` so it reduces in the kernel. -/
def pyMin (a b : ℚ) : ℚ :=
  if Rat.blt b a then b else a

/-- Executable less-or-equal on rationals. -/
def qLeB (a b : ℚ) : Bool :=
  !(Rat.blt b a)

/-- Executable less-or-equal on naturals. -/
def natLeB (a b : Nat) : Bool :=
  Nat.ble a b

/-- Stable insert for descending order: the element goes in front of the first
element whose key is less or equal, hence after any earlier element with a
strictly greater or an equal key. -/
def insertDescBy {α β : Type} (leB : β → β → Bool) (key : α → β) (a : α) :
    List α → List α
  | [] => [a]
  | b :: bs =>
    if leB (key b) (key a) then a :: b :: bs else b :: insertDescBy leB key a bs

/-- Stable descending sort by key: the model of Python
`list.sort(key=..., reverse=True)` / `sorted(..., key=..., reverse=True)`
(Python's sort is stable; ties keep their original relative order). -/
def sortDescBy {α β : Type} (leB : β → β → Bool) (key : α → β) : List α → List α
  | [] => []
  | a :: as => insertDescBy leB key a (sortDescBy leB key as)

/-! ### Data model -/

/-- Row of the `users` table (only the columns the retrieval core reads). -/
structure User where
  id : Nat
  email : String
deriving Repr, DecidableEq

/-- Row of the `documents` table, as read by the retrieval core.  A dict key
that is absent is modelled by the empty string (for text columns) or `none`
(for `filename`), matching how the Python code's `.get` defaults observe it. -/
structure DbDoc where
  id : Nat
  user_id : Nat
  document_type : String := ""
  title : String := ""
  description : String := ""
  ocr_status : String := ""
  ocr_text : String := ""
  filename : Option String := none
deriving Repr, DecidableEq

/-- A document dict as it flows through the search services: the underlying
row plus the per-query score keys that the various stages may or may not have
attached (`Option` models dict-key absence, observed via `.get`). -/
structure SRec where
  doc : DbDoc
  similarity : Option ℚ := none
  relevance_score : Option Nat := none
  semantic_score : Option ℚ := none
  keyword_score : Option Nat := none
  search_type : Option String := none
  combined_score : Option ℚ := none
deriving Repr, DecidableEq

/-- A row returned by the external `match_documents` nearest-neighbor RPC: the
document columns together with the reported `similarity`. -/
structure SemHit where
  doc : DbDoc
  similarity : ℚ
deriving Repr, DecidableEq

/-- View of an RPC row as a document dict (its `similarity` key is present). -/
def SemHit.toRec (h : SemHit) : SRec :=
  { doc := h.doc, similarity := some h.similarity }

/-- The in-memory model of the two supabase tables the retrieval core reads. -/
structure DB where
  users : List User
  documents : List DbDoc
deriving Repr, DecidableEq

/-- The HTTP-mapped exceptions the search services raise. -/
inductive SearchErr where
  | userNotFound
  | semanticFailed
  | searchRespondFailed
  | comparisonFailed
deriving Repr, DecidableEq

/-! ### SearchService (`app/services/search_service.py`) -/

/-- Kind-appropriate lowercased search text per `SearchService.search_documents`:
title plus description (space-joined, lowercased) for notes, the OCR text
(lowercased) for other documents when OCR has completed and produced text,
empty otherwise. -/
def searchableContent (d : DbDoc) : String :=
  if d.document_type = "note" then pyLower (d.title ++ " " ++ d.description)
  else if d.ocr_status = "completed" && d.ocr_text ≠ "" then pyLower d.ocr_text
  else ""

/-- Relevance scoring loop of `SearchService.search_documents`: for each
whitespace token of the (already lowercased) query, add the token's occurrence
count in the content when the token occurs in the content. -/
def relevanceScore (queryLower : String) (content : String) : Nat :=
  (pySplitWs queryLower).foldl
    (fun score w =>
      if pyIn w content then score + pyCount w.data content.data else score)
    0

/-- Supabase lookup `users.select('id').eq('email', email)` followed by
`data[0]['id']` — the first user row whose email matches, if any. -/
def findUserId (db : DB) (email : String) : Option Nat :=
  ((db.users.filter (fun u => u.email = email)).head?).map (fun u => u.id)

/-- `SearchService.search_documents`: resolve the owner (unknown owner yields
the empty list), scan the owner's documents, keep those whose searchable
content is non-empty and scores positive, attach `relevance_score`, sort by
descending score (stable), and apply the Python slice `[:limit]`. -/
def searchDocuments (db : DB) (email query : String) (limit : Int) : List SRec :=
  match findUserId db email with
  | none => []
  | some uid =>
    let docs := db.documents.filter (fun d => d.user_id = uid)
    let matching := docs.filterMap (fun d =>
      let content := searchableContent d
      if content ≠ "" then
        let score := relevanceScore (pyLower query) content
        if 0 < score then some { doc := d, relevance_score := some score } else none
      else none)
    pyTake limit (sortDescBy natLeB (fun r => r.relevance_score.getD 0) matching)

/-- The fixed no-content apology string returned by
`SearchService.generate_ai_response` when no documents were retrieved. -/
def apologyMessage : String :=
  "I couldn\x27t find any relevant documents or notes to answer your question. Please make sure you have uploaded documents with OCR processing completed or created some notes."

/-- Python `doc.get('document_type', 'document')` under the empty-string
encoding of an absent key. -/
def docTypeOf (r : SRec) : String :=
  if r.doc.document_type = "" then "document" else r.doc.document_type

/-- Label title per `generate_ai_response`:
`doc.get('title') or doc.get('filename', 'Document i+1')`. -/
def docLabel (i : Nat) (r : SRec) : String :=
  if r.doc.title ≠ "" then r.doc.title
  else r.doc.filename.getD ("Document " ++ toString (i + 1))

/-- Grounding content selected per document kind in `generate_ai_response`:
the description for notes, the OCR text otherwise. -/
def contextContent (r : SRec) : String :=
  if docTypeOf r = "note" then r.doc.description else r.doc.ocr_text

/-- Label part of one grounding excerpt: `f"{doc_type.title()} {i+1} ({title}):\n"`. -/
def contextLabel (i : Nat) (r : SRec) : String :=
  pyStrTitle (docTypeOf r) ++ " " ++ toString (i + 1) ++ " (" ++ docLabel i r ++ "):\n"

/-- One labelled grounding excerpt: the label followed by the content limited
to 1000 characters. -/
def contextPart (i : Nat) (r : SRec) : String :=
  contextLabel i r ++ pyTruncate 1000 (contextContent r)

/-- Grounding context of `generate_ai_response`: the labelled excerpts of the
top three documents, joined by blank lines. -/
def buildContext (docs : List SRec) : String :=
  String.intercalate "\n\n" ((docs.take 3).enum.map (fun p => contextPart p.1 p.2))

/-- `SearchService.generate_ai_response`: the fixed apology when there are no
documents (no external call), otherwise the grounded-completion oracle applied
to the query and the grounding context built from the top three documents. -/
def generateAiResponse (gen : String → String → String) (query : String)
    (docs : List SRec) : String :=
  if docs.isEmpty then apologyMessage
  else gen query (buildContext docs)

/-- `_get_document_preview`: description for notes, OCR text otherwise, each
limited to 200 characters. -/
def docPreview (r : SRec) : String :=
  if r.doc.document_type = "note" then pyTruncate 200 r.doc.description
  else pyTruncate 200 r.doc.ocr_text

/-! ### SemanticSearchService (`app/services/semantic_search_service.py`) -/

/-- `SemanticSearchService.get_user_id_from_email`: 404 when no user row
matches the email, else the first matching row's id. -/
def getUserIdFromEmail (db : DB) (email : String) : Except SearchErr Nat :=
  match findUserId db email with
  | none => Except.error SearchErr.userNotFound
  | some uid => Except.ok uid

/-- `SemanticSearchService.semantic_search`: resolve the owner (propagating the
404), then consult the external embedding + `match_documents` pipeline, whose
outcome for this call is the oracle `ext`; an external failure is re-raised as
the 500 "Semantic search failed" error. -/
def semanticSearch (db : DB) (ext : Except Unit (List SemHit)) (email : String) :
    Except SearchErr (List SemHit) :=
  match getUserIdFromEmail db email with
  | Except.error e => Except.error e
  | Except.ok _ =>
    match ext with
    | Except.error _ => Except.error SearchErr.semanticFailed
    | Except.ok hits => Except.ok hits

/-- `SemanticSearchService.keyword_search`: delegates to
`SearchService.search_documents` (whose pure model cannot raise, so the
500-wrapping except clause is unreachable). -/
def keywordSearch (db : DB) (email query : String) (limit : Int) : List SRec :=
  searchDocuments db email query limit

/-- Score normalization on the keyword leg of the fusion:
`min(keyword_score / 100, 1.0) if keyword_score > 0 else 0`. -/
def normalizedKeyword (kw : Nat) : ℚ :=
  if 0 < kw then pyMin ((kw : ℚ) / 100) 1 else 0

/-- Python dict insertion `combined_results[k] = v` on an insertion-ordered
association list keyed by document id: replace in place when present, append
otherwise. -/
def dictSet (m : List SRec) (k : Nat) (v : SRec) : List SRec :=
  if m.any (fun r => r.doc.id = k) then
    m.map (fun r => if r.doc.id = k then v else r)
  else m ++ [v]

/-- First merge loop of `hybrid_search`: each semantic row enters the dict with
its similarity as `semantic_score`, a zero `keyword_score`, and provenance
`semantic`. -/
def mergeSemantic (hits : List SemHit) : List SRec :=
  hits.foldl
    (fun acc h =>
      dictSet acc h.doc.id
        { h.toRec with
          semantic_score := some h.similarity
          keyword_score := some 0
          search_type := some "semantic" })
    []

/-- Second merge loop of `hybrid_search`: a keyword row already present gets
its `keyword_score` and provenance `hybrid` set in place; a new one enters with
zero `semantic_score` and provenance `keyword`. -/
def mergeKeyword (acc0 : List SRec) (kw : List SRec) : List SRec :=
  kw.foldl
    (fun acc d =>
      if acc.any (fun r => r.doc.id = d.doc.id) then
        acc.map (fun r =>
          if r.doc.id = d.doc.id then
            { r with
              keyword_score := some (d.relevance_score.getD 0)
              search_type := some "hybrid" }
          else r)
      else
        acc ++ [{ d with
                  semantic_score := some 0
                  keyword_score := some (d.relevance_score.getD 0)
                  search_type := some "keyword" }])
    acc0

/-- Scoring loop of `hybrid_search`: attach
`combined_score = 0.7 * semantic + 0.3 * normalized_keyword` to every merged
entry. -/
def attachCombined (m : List SRec) : List SRec :=
  m.map (fun r =>
    { r with
      combined_score := some
        ((7 / 10 : ℚ) * r.semantic_score.getD 0 +
         (3 / 10 : ℚ) * normalizedKeyword (r.keyword_score.getD 0)) })

/-- `SemanticSearchService.hybrid_search`: run the semantic stage, then the
keyword stage, merge by document id, score, sort by descending combined score
(stable) and slice to the limit; if anything in that block raises (in the pure
model, only the semantic stage can), fall back to the keyword search. -/
def hybridSearch (db : DB) (ext : Except Unit (List SemHit)) (email query : String)
    (limit : Int) : List SRec :=
  match semanticSearch db ext email with
  | Except.error _ => keywordSearch db email query limit
  | Except.ok semanticResults =>
    let keywordResults := keywordSearch db email query limit
    let merged := mergeKeyword (mergeSemantic semanticResults) keywordResults
    let scored := attachCombined merged
    pyTake limit (sortDescBy qLeB (fun r => r.combined_score.getD 0) scored)

/-! ### Search orchestration (`search_and_respond`, `documents.py` compare) -/

/-- One entry of the `relevant_documents` array of the search response. -/
structure ItemSummary where
  id : Nat
  title : String
  document_type : String
  filename : Option String
  semantic_score : ℚ
  keyword_score : Nat
  combined_score : ℚ
  search_type : String
  preview : String
deriving Repr, DecidableEq

/-- The reported score chain of `search_and_respond`:
`doc.get("combined_score", doc.get("similarity", doc.get("relevance_score", 0)))`. -/
def getCombined (r : SRec) : ℚ :=
  match r.combined_score with
  | some c => c
  | none =>
    match r.similarity with
    | some s => s
    | none => ((r.relevance_score.getD 0 : Nat) : ℚ)

/-- Per-document summary built by `search_and_respond`. -/
def summarize (r : SRec) : ItemSummary :=
  { id := r.doc.id
    title := if r.doc.title ≠ "" then r.doc.title else r.doc.filename.getD "Untitled"
    document_type := if r.doc.document_type = "" then "unknown" else r.doc.document_type
    filename := r.doc.filename
    semantic_score := r.semantic_score.getD 0
    keyword_score := r.keyword_score.getD 0
    combined_score := getCombined r
    search_type := r.search_type.getD "unknown"
    preview := docPreview r }

/-- Response payload of `search_and_respond`. -/
structure SearchResult where
  query : String
  search_type : String
  documents_found : Nat
  relevant_documents : List ItemSummary
  ai_response : String
deriving Repr, DecidableEq

/-- Strategy dispatch of `search_and_respond`: semantic-only (errors
propagate), keyword-only, or hybrid (the default branch). -/
def chooseDocs (db : DB) (ext : Except Unit (List SemHit)) (email query : String)
    (limit : Int) (searchType : String) : Except SearchErr (List SRec) :=
  if searchType = "semantic" then
    (semanticSearch db ext email).map (fun hits => hits.map SemHit.toRec)
  else if searchType = "keyword" then
    Except.ok (keywordSearch db email query limit)
  else
    Except.ok (hybridSearch db ext email query limit)

/-- `SemanticSearchService.search_and_respond`: run the selected strategy,
compose the grounded answer, and shape the response; any exception inside the
body (including an HTTP error from the semantic stage) is re-raised as the 500
"Search and response failed" error. -/
def searchAndRespond (db : DB) (ext : Except Unit (List SemHit))
    (gen : String → String → String) (email query : String) (limit : Int)
    (searchType : String) : Except SearchErr SearchResult :=
  match chooseDocs db ext email query limit searchType with
  | Except.error _ => Except.error SearchErr.searchRespondFailed
  | Except.ok docs =>
    Except.ok
      { query := query
        search_type := searchType
        documents_found := docs.length
        relevant_documents := docs.map summarize
        ai_response := generateAiResponse gen query docs }

/-- Response payload of the `/documents/search/compare` endpoint. -/
structure Comparison where
  query : String
  semantic_result : SearchResult
  keyword_result : SearchResult
  hybrid_result : SearchResult
deriving Repr, DecidableEq

/-- `compare_search_types` (`app/api/documents.py`): the three strategies are
awaited sequentially inside one try block; any exception makes the whole
endpoint raise the single aggregated 500 "Search comparison failed" error. -/
def compareSearchTypes (db : DB) (ext : Except Unit (List SemHit))
    (gen : String → String → String) (email q : String) (limit : Int) :
    Except SearchErr Comparison :=
  match searchAndRespond db ext gen email q limit "semantic" with
  | Except.error _ => Except.error SearchErr.comparisonFailed
  | Except.ok s =>
    match searchAndRespond db ext gen email q limit "keyword" with
    | Except.error _ => Except.error SearchErr.comparisonFailed
    | Except.ok k =>
      match searchAndRespond db ext gen email q limit "hybrid" with
      | Except.error _ => Except.error SearchErr.comparisonFailed
      | Except.ok h =>
        Except.ok { query := q, semantic_result := s, keyword_result := k, hybrid_result := h }

/-! ### Helper lemmas -/

lemma mem_insertDescBy {α β : Type} (leB : β → β → Bool) (key : α → β) (x a : α)
    (l : List α) : a ∈ insertDescBy leB key x l ↔ a = x ∨ a ∈ l := by
  induction l with
  | nil => simp [insertDescBy]
  | cons b bs ih =>
    unfold insertDescBy
    split
    · simp [List.mem_cons]
    · simp only [List.mem_cons, ih]
      tauto

lemma mem_sortDescBy {α β : Type} (leB : β → β → Bool) (key : α → β) (a : α)
    (l : List α) : a ∈ sortDescBy leB key l ↔ a ∈ l := by
  induction l with
  | nil => simp [sortDescBy]
  | cons b bs ih =>
    unfold sortDescBy
    rw [mem_insertDescBy]
    simp [ih]

lemma mem_pyTake {α : Type} {n : Int} {xs : List α} {a : α}
    (h : a ∈ pyTake n xs) : a ∈ xs := by
  unfold pyTake at h
  split at h <;> exact List.take_subset _ _ h

lemma foldl_count_eq (c : String) (ws : List String) (acc : Nat) :
    ws.foldl (fun score w => if pyIn w c then score + pyCount w.data c.data else score) acc
      = acc + (ws.map (fun w => pyCount w.data c.data)).sum := by
  induction ws generalizing acc with
  | nil => simp
  | cons w ws ih =>
    simp only [List.foldl_cons, List.map_cons, List.sum_cons]
    rw [ih]
    by_cases h : pyIn w c = true
    · rw [if_pos h]
      omega
    · rw [if_neg h]
      have hz : pyCount w.data c.data = 0 := by
        unfold pyIn at h
        simpa using h
      omega

lemma relevanceScore_eq_sum (q c : String) :
    relevanceScore q c = ((pySplitWs q).map (fun w => pyCount w.data c.data)).sum := by
  unfold relevanceScore
  rw [foldl_count_eq]
  simp

lemma searchDocuments_shape {db : DB} {email query : String} {limit : Int}
    {r : SRec} (h : r ∈ searchDocuments db email query limit) :
    r.relevance_score = some (relevanceScore (pyLower query) (searchableContent r.doc)) ∧
    0 < relevanceScore (pyLower query) (searchableContent r.doc) ∧
    r.similarity = none ∧ r.semantic_score = none ∧ r.keyword_score = none ∧
    r.search_type = none ∧ r.combined_score = none := by
  unfold searchDocuments at h
  cases hf : findUserId db email with
  | none =>
    rw [hf] at h
    simp at h
  | some uid =>
    rw [hf] at h
    have h1 := mem_pyTake h
    rw [mem_sortDescBy, List.mem_filterMap] at h1
    obtain ⟨d, _, hr⟩ := h1
    dsimp only at hr
    split at hr
    · split at hr
      · injection hr with hr
        subst hr
        simp_all
      · exact absurd hr (by simp)
    · exact absurd hr (by simp)

lemma attachCombined_shape {m : List SRec} {r : SRec} (h : r ∈ attachCombined m) :
    r.combined_score = some ((7 / 10 : ℚ) * r.semantic_score.getD 0 +
      (3 / 10 : ℚ) * normalizedKeyword (r.keyword_score.getD 0)) := by
  unfold attachCombined at h
  rw [List.mem_map] at h
  obtain ⟨e, _, he⟩ := h
  subst he
  rfl

lemma semanticSearch_error_of_ext_error {db : DB} {email : String} {e : Unit} :
    ∃ err, semanticSearch db (Except.error e) email = Except.error err := by
  unfold semanticSearch
  cases hf : getUserIdFromEmail db email with
  | error e' => exact ⟨e', rfl⟩
  | ok _ => exact ⟨SearchErr.semanticFailed, rfl⟩

lemma semanticSearch_ok_shape {db : DB} {ext : Except Unit (List SemHit)}
    {email : String} {hits : List SemHit}
    (h : semanticSearch db ext email = Except.ok hits) :
    findUserId db email ≠ none ∧ ext = Except.ok hits := by
  unfold semanticSearch getUserIdFromEmail at h
  cases hf : findUserId db email with
  | none => rw [hf] at h; simp at h
  | some uid =>
    rw [hf] at h
    refine ⟨by simp, ?_⟩
    cases ext with
    | error _ => simp at h
    | ok l => simpa using h

/-! ### Concrete fixtures (used by witnesses and counterexamples) -/

/-- The note of the spec's concrete scenario: title "Budget Plan",
description "Q3 budget exceeds Q2 budget by 10 percent". -/
def noteBudget : DbDoc :=
  { id := 10, user_id := 1, document_type := "note", title := "Budget Plan",
    description := "Q3 budget exceeds Q2 budget by 10 percent" }

/-- One owner with the budget note. -/
def dbBudget : DB :=
  { users := [{ id := 1, email := "u@x.com" }], documents := [noteBudget] }

/-- One nearest-neighbor hit for the budget note with similarity 1/2. -/
def hitsBudget : List SemHit :=
  [{ doc := noteBudget, similarity := 1 / 2 }]

/-- The merged entry the hybrid fusion produces for the budget note: the
lexical score of "budget" in "budget plan q3 budget exceeds q2 budget by 10
percent" is 3, so the combined score is 7/10 * 1/2 + 3/10 * 3/100. -/
def rHybridBudget : SRec :=
  { doc := noteBudget, similarity := some (1 / 2), semantic_score := some (1 / 2),
    keyword_score := some 3, search_type := some "hybrid",
    combined_score := some (359 / 1000) }

/-- The scored record the lexical scorer produces for the budget note. -/
def rKeywordBudget : SRec :=
  { doc := noteBudget, relevance_score := some 3 }

/-- A concrete grounded-completion oracle. -/
def genAns : String → String → String := fun _ _ => "ans"

/-! ### Claim theorems -/

/-- C1: every item returned by a hybrid search whose semantic stage succeeded
carries `combined_score = 0.7 * normalized_semantic + 0.3 * normalized_lexical`,
where `normalized_semantic` is the item's semantic similarity (0 for items the
semantic stage did not return) and `normalized_lexical` is
`min(lexical_score / 100, 1.0)` (0 for items without a lexical score).  When
the semantic stage fails the fusion never runs (the call degrades to the
lexical-only result, see the fallback theorem), so the fused-score property is
stated on the fusion path. -/
theorem hybrid_combined_score_formula (db : DB) (hits : List SemHit)
    (email query : String) (limit : Int) (r : SRec)
    (hr : r ∈ hybridSearch db (Except.ok hits) email query limit) :
    r.combined_score = some ((7 / 10 : ℚ) * r.semantic_score.getD 0 +
      (3 / 10 : ℚ) * normalizedKeyword (r.keyword_score.getD 0)) := by
  unfold hybridSearch at hr
  cases hs : semanticSearch db (Except.ok hits) email with
  | error e =>
    rw [hs] at hr
    dsimp only at hr
    have hnone : findUserId db email = none := by
      unfold semanticSearch getUserIdFromEmail at hs
      cases hf : findUserId db email with
      | none => rfl
      | some uid => rw [hf] at hs; simp at hs
    unfold keywordSearch searchDocuments at hr
    rw [hnone] at hr
    simp at hr
  | ok sem =>
    rw [hs] at hr
    dsimp only at hr
    have h1 := mem_pyTake hr
    rw [mem_sortDescBy] at h1
    exact attachCombined_shape h1

set_option maxRecDepth 100000 in
/-- Witness for C1 at the budget-note fixture. -/
theorem hybrid_combined_score_formula_witness :
    rHybridBudget ∈ hybridSearch dbBudget (Except.ok hitsBudget) "u@x.com" "budget" 10 ∧
    rHybridBudget.combined_score = some ((7 / 10 : ℚ) * rHybridBudget.semantic_score.getD 0 +
      (3 / 10 : ℚ) * normalizedKeyword (rHybridBudget.keyword_score.getD 0)) :=
  ⟨by with_unfolding_all decide,
   hybrid_combined_score_formula dbBudget hitsBudget "u@x.com" "budget" 10 rHybridBudget
     (by with_unfolding_all decide)⟩

/-- C2: every item returned by the lexical scorer carries a relevance score
equal to the sum, over each whitespace token of the lowercased query, of the
token's (non-overlapping, case-insensitive) substring occurrence count in the
item's lowercased searchable text, and that sum is positive — an item with
score 0 is never returned. -/
theorem lexical_score_is_token_count_sum (db : DB) (email query : String)
    (limit : Int) (r : SRec) (hr : r ∈ searchDocuments db email query limit) :
    r.relevance_score = some (((pySplitWs (pyLower query)).map
        (fun w => pyCount w.data (searchableContent r.doc).data)).sum) ∧
    0 < ((pySplitWs (pyLower query)).map
        (fun w => pyCount w.data (searchableContent r.doc).data)).sum := by
  have hs := searchDocuments_shape hr
  rw [relevanceScore_eq_sum] at hs
  exact ⟨hs.1, hs.2.1⟩

set_option maxRecDepth 100000 in
/-- Witness for C2 at the budget-note fixture (score 3: "budget" occurs once
in the title and twice in the description). -/
theorem lexical_score_is_token_count_sum_witness :
    rKeywordBudget ∈ searchDocuments dbBudget "u@x.com" "budget" 10 ∧
    (rKeywordBudget.relevance_score = some (((pySplitWs (pyLower "budget")).map
        (fun w => pyCount w.data (searchableContent rKeywordBudget.doc).data)).sum) ∧
     0 < ((pySplitWs (pyLower "budget")).map
        (fun w => pyCount w.data (searchableContent rKeywordBudget.doc).data)).sum) :=
  ⟨by with_unfolding_all decide,
   lexical_score_is_token_count_sum dbBudget "u@x.com" "budget" 10 rKeywordBudget
     (by with_unfolding_all decide)⟩

/-- C3: when the semantic stage fails, the hybrid search returns exactly the
lexical-only (keyword) result for the same owner, query and limit instead of
failing the overall search. -/
theorem hybrid_fallback_equals_lexical (db : DB) (e : Unit) (email query : String)
    (limit : Int) :
    hybridSearch db (Except.error e) email query limit =
      keywordSearch db email query limit := by
  unfold hybridSearch
  obtain ⟨err, herr⟩ := @semanticSearch_error_of_ext_error db email e
  rw [herr]

lemma pyMin_eq_min (a b : ℚ) : pyMin a b = min a b := by
  unfold pyMin
  by_cases h : b < a
  · rw [if_pos, min_eq_right h.le]
    exact h
  · rw [if_neg, min_eq_left (not_lt.mp h)]
    exact h

/-- An empty database, the owner-not-found fixture. -/
def dbEmpty : DB :=
  { users := [], documents := [] }

/-- C5: when the selected strategy retrieves zero items, the orchestrator
returns the fixed no-content apology with an empty item list, and the response
does not depend on the grounded-completion oracle — no external generator call
is made. -/
theorem zero_results_fixed_apology (db : DB) (ext : Except Unit (List SemHit))
    (gen gen' : String → String → String) (email query : String) (limit : Int)
    (searchType : String)
    (h : chooseDocs db ext email query limit searchType = Except.ok []) :
    searchAndRespond db ext gen email query limit searchType =
      Except.ok { query := query, search_type := searchType, documents_found := 0,
                  relevant_documents := [], ai_response := apologyMessage } ∧
    searchAndRespond db ext gen email query limit searchType =
      searchAndRespond db ext gen' email query limit searchType := by
  have h1 : ∀ g : String → String → String,
      searchAndRespond db ext g email query limit searchType =
        Except.ok { query := query, search_type := searchType, documents_found := 0,
                    relevant_documents := [], ai_response := apologyMessage } := by
    intro g
    unfold searchAndRespond
    rw [h]
    rfl
  exact ⟨h1 gen, (h1 gen).trans (h1 gen').symm⟩

/-- Witness for C5: an owner with no content gets the apology, for any two
generator oracles. -/
theorem zero_results_fixed_apology_witness :
    chooseDocs dbEmpty (Except.ok []) "ghost@x.com" "hello" 10 "keyword" = Except.ok [] ∧
    (searchAndRespond dbEmpty (Except.ok []) genAns "ghost@x.com" "hello" 10 "keyword" =
       Except.ok { query := "hello", search_type := "keyword", documents_found := 0,
                   relevant_documents := [], ai_response := apologyMessage } ∧
     searchAndRespond dbEmpty (Except.ok []) genAns "ghost@x.com" "hello" 10 "keyword" =
       searchAndRespond dbEmpty (Except.ok []) (fun _ _ => "other") "ghost@x.com" "hello" 10 "keyword") :=
  ⟨rfl,
   zero_results_fixed_apology dbEmpty (Except.ok []) genAns (fun _ _ => "other")
     "ghost@x.com" "hello" 10 "keyword" rfl⟩

/-- C8: the lexical score normalization `min(score / 100, 1.0) if score > 0
else 0` is monotonically non-decreasing over the naturals and saturates at 1
for every raw score of at least 100. -/
theorem normalizedKeyword_monotone_saturates :
    (∀ a b : Nat, a ≤ b → normalizedKeyword a ≤ normalizedKeyword b) ∧
    (∀ n : Nat, 100 ≤ n → normalizedKeyword n = 1) := by
  constructor
  · intro a b hab
    unfold normalizedKeyword
    by_cases ha : 0 < a
    · have hb : 0 < b := lt_of_lt_of_le ha hab
      rw [if_pos ha, if_pos hb, pyMin_eq_min, pyMin_eq_min]
      have hc : (a : ℚ) ≤ (b : ℚ) := by exact_mod_cast hab
      exact min_le_min (by gcongr) le_rfl
    · rw [if_neg ha]
      split
      · rw [pyMin_eq_min]
        exact le_min (by positivity) (by norm_num)
      · exact le_refl 0
  · intro n hn
    unfold normalizedKeyword
    rw [if_pos (by omega), pyMin_eq_min]
    apply min_eq_right
    rw [le_div_iff₀ (by norm_num)]
    norm_num
    exact_mod_cast hn

/-- Witness for C8 at raw scores 3 ≤ 5 and 150. -/
theorem normalizedKeyword_monotone_saturates_witness :
    ((3 : Nat) ≤ 5 ∧ normalizedKeyword 3 ≤ normalizedKeyword 5) ∧
    ((100 : Nat) ≤ 150 ∧ normalizedKeyword 150 = 1) :=
  ⟨⟨by norm_num, normalizedKeyword_monotone_saturates.1 3 5 (by norm_num)⟩,
   ⟨by norm_num, normalizedKeyword_monotone_saturates.2 150 (by norm_num)⟩⟩

/-- C9: for an owner email with no user record, the keyword search returns the
empty list, the hybrid search also returns the empty list (the semantic
stage's not-found error is swallowed by the catch-all fallback to the keyword
search, which itself returns empty), while the semantic-only search raises the
not-found error. -/
theorem unknown_owner_search_behavior (db : DB) (ext : Except Unit (List SemHit))
    (email query : String) (limit : Int) (h : findUserId db email = none) :
    keywordSearch db email query limit = [] ∧
    hybridSearch db ext email query limit = [] ∧
    semanticSearch db ext email = Except.error SearchErr.userNotFound := by
  have hk : keywordSearch db email query limit = [] := by
    unfold keywordSearch searchDocuments
    rw [h]
  have hsem : semanticSearch db ext email = Except.error SearchErr.userNotFound := by
    unfold semanticSearch getUserIdFromEmail
    rw [h]
  refine ⟨hk, ?_, hsem⟩
  unfold hybridSearch
  rw [hsem]
  exact hk

/-- Witness for C9 at an empty database. -/
theorem unknown_owner_search_behavior_witness :
    findUserId dbEmpty "ghost@x.com" = none ∧
    (keywordSearch dbEmpty "ghost@x.com" "q" 10 = [] ∧
     hybridSearch dbEmpty (Except.ok []) "ghost@x.com" "q" 10 = [] ∧
     semanticSearch dbEmpty (Except.ok []) "ghost@x.com" =
       Except.error SearchErr.userNotFound) :=
  ⟨rfl, unknown_owner_search_behavior dbEmpty (Except.ok []) "ghost@x.com" "q" 10 rfl⟩

/-- C10: the grounding excerpt of a note consists of the label followed by the
description truncated to 1000 characters — the title appears only in the
label — so a note whose description does not contain a query token (for
instance one that matched solely through its title) contributes excerpt
content free of that token. -/
theorem note_excerpt_from_description_only :
    (∀ (r : SRec) (i : Nat), r.doc.document_type = "note" →
        contextPart i r = contextLabel i r ++ pyTruncate 1000 r.doc.description) ∧
    (∀ (r : SRec) (tok : String), r.doc.document_type = "note" →
        r.doc.description.data.length ≤ 1000 →
        pyCount tok.data (pyLower r.doc.description).data = 0 →
        pyCount tok.data (pyLower (pyTruncate 1000 (contextContent r))).data = 0) := by
  have hct : ∀ r : SRec, r.doc.document_type = "note" →
      contextContent r = r.doc.description := by
    intro r h
    unfold contextContent docTypeOf
    rw [h]
    rfl
  constructor
  · intro r i h
    unfold contextPart
    rw [hct r h]
  · intro r tok h hlen hmiss
    have htr : pyTruncate 1000 r.doc.description = r.doc.description := by
      unfold pyTruncate
      rw [if_neg (by omega)]
    rw [hct r h, htr]
    exact hmiss

/-- A note whose title contains "budget" but whose description does not. -/
def noteTitleOnly : SRec :=
  { doc := { id := 20, user_id := 1, document_type := "note", title := "Budget",
             description := "We will discuss finances" } }

/-- Witness for C10 at a note matching only through its title. -/
theorem note_excerpt_from_description_only_witness :
    (noteTitleOnly.doc.document_type = "note" ∧
     contextPart 0 noteTitleOnly =
       contextLabel 0 noteTitleOnly ++ pyTruncate 1000 noteTitleOnly.doc.description) ∧
    (noteTitleOnly.doc.description.data.length ≤ 1000 ∧
     pyCount "budget".data (pyLower noteTitleOnly.doc.description).data = 0 ∧
     pyCount "budget".data (pyLower (pyTruncate 1000 (contextContent noteTitleOnly))).data = 0) :=
  ⟨⟨rfl, note_excerpt_from_description_only.1 noteTitleOnly 0 rfl⟩,
   ⟨by decide, by decide,
    note_excerpt_from_description_only.2 noteTitleOnly "budget" rfl (by decide) (by decide)⟩⟩

/-- Python `search_request.limit or 10` of the POST search endpoint: `or`
takes the default when the value is absent (None) or falsy (zero). -/
def postLimitOrDefault (l : Option Int) : Int :=
  match l with
  | none => 10
  | some v => if v = 0 then 10 else v

/-- C4 counterexample: with the semantic backend down (raising on every call),
the compare endpoint fails as a whole with the single aggregated comparison
error, even though the keyword and hybrid strategies individually complete. -/
theorem compare_counterexample :
    compareSearchTypes dbBudget (Except.error ()) genAns "u@x.com" "budget" 5 =
      Except.error SearchErr.comparisonFailed ∧
    (searchAndRespond dbBudget (Except.error ()) genAns "u@x.com" "budget" 5 "keyword").isOk = true ∧
    (searchAndRespond dbBudget (Except.error ()) genAns "u@x.com" "budget" 5 "hybrid").isOk = true :=
  ⟨rfl, rfl, rfl⟩

/-- C4 (amended): the three compare strategies run sequentially inside a
single try block, so a semantic-stage failure aborts the whole compare with
one aggregated error instead of a per-strategy report. -/
theorem compare_aggregates_semantic_failure (db : DB) (gen : String → String → String)
    (email q : String) (limit : Int) (e : Unit) :
    compareSearchTypes db (Except.error e) gen email q limit =
      Except.error SearchErr.comparisonFailed := by
  have h1 : searchAndRespond db (Except.error e) gen email q limit "semantic" =
      Except.error SearchErr.searchRespondFailed := by
    unfold searchAndRespond chooseDocs
    obtain ⟨err, herr⟩ := @semanticSearch_error_of_ext_error db email e
    rw [if_pos rfl, herr]
    rfl
  unfold compareSearchTypes
  rw [h1]

set_option maxRecDepth 100000 in
/-- C6 counterexample: in keyword mode the reported `combined_score` of the
budget note is the raw lexical score 3, not the normalized
`min(3 / 100, 1.0) = 0.03` the claim requires. -/
theorem keyword_mode_reports_raw_score :
    (searchAndRespond dbBudget (Except.ok []) genAns "u@x.com" "budget" 10 "keyword").map
        (fun res => res.relevant_documents.map (fun it => it.combined_score)) =
      Except.ok [(3 : ℚ)] ∧
    (3 : ℚ) ≠ pyMin ((3 : ℚ) / 100) 1 := by
  constructor
  · with_unfolding_all rfl
  · with_unfolding_all decide

/-- C6 (amended): in keyword-only mode each returned item's reported
`combined_score` falls through the `.get` chain to the raw (unnormalized)
lexical `relevance_score`; in semantic-only mode it equals the reported
similarity, i.e. `normalized_semantic`. -/
theorem degenerate_mode_reported_scores :
    (∀ (db : DB) (email query : String) (limit : Int) (r : SRec),
        r ∈ keywordSearch db email query limit →
        (summarize r).combined_score = ((r.relevance_score.getD 0 : Nat) : ℚ)) ∧
    (∀ h : SemHit, (summarize h.toRec).combined_score = h.similarity) := by
  constructor
  · intro db email query limit r hr
    obtain ⟨h1, h2, h3, h4, h5, h6, h7⟩ := searchDocuments_shape hr
    have hc : (summarize r).combined_score = getCombined r := rfl
    rw [hc]
    unfold getCombined
    rw [h7, h3]
  · intro h
    rfl

set_option maxRecDepth 100000 in
/-- Witness for C6 (amended) at the budget-note fixture and a similarity-0.5
hit. -/
theorem degenerate_mode_reported_scores_witness :
    (rKeywordBudget ∈ keywordSearch dbBudget "u@x.com" "budget" 10 ∧
     (summarize rKeywordBudget).combined_score =
       ((rKeywordBudget.relevance_score.getD 0 : Nat) : ℚ)) ∧
    (summarize (SemHit.toRec { doc := noteBudget, similarity := 1 / 2 })).combined_score =
      (1 / 2 : ℚ) :=
  ⟨⟨by with_unfolding_all decide,
    degenerate_mode_reported_scores.1 dbBudget "u@x.com" "budget" 10 rKeywordBudget
      (by with_unfolding_all decide)⟩,
   degenerate_mode_reported_scores.2 { doc := noteBudget, similarity := 1 / 2 }⟩

/-- Two-note fixture: "budget" scores 1 in the first note and 2 in the
second. -/
def dbTwoNotes : DB :=
  { users := [{ id := 1, email := "u@x.com" }],
    documents :=
      [{ id := 10, user_id := 1, document_type := "note", title := "A",
         description := "budget" },
       { id := 11, user_id := 1, document_type := "note", title := "B",
         description := "budget budget" }] }

set_option maxRecDepth 100000 in
/-- C7 counterexample: non-positive limits are not rejected — limit `-1`
silently drops the lowest-ranked match (Python slice semantics) and limit `0`
completes normally with an empty item list and the apology answer; no
validation error is raised in either case. -/
theorem nonpositive_limit_not_rejected :
    (keywordSearch dbTwoNotes "u@x.com" "budget" (-1)).map (fun r => r.doc.id) = [11] ∧
    searchAndRespond dbTwoNotes (Except.ok []) genAns "u@x.com" "budget" 0 "keyword" =
      Except.ok { query := "budget", search_type := "keyword", documents_found := 0,
                  relevant_documents := [], ai_response := apologyMessage } :=
  ⟨by decide, rfl⟩

/-- C7 (amended): the orchestrator performs no validation of `limit` — for
any non-positive limit the keyword-mode search completes normally with the
Python slice of the ranked list (limit 0 yields the empty list) instead of
raising a validation error; the only defaulting is `limit or 10` at the POST
endpoint (and the GET endpoint's declared default 10), which maps an absent
limit to 10. -/
theorem limit_not_validated (db : DB) (gen : String → String → String)
    (email query : String) (limit : Int) (_hnp : limit ≤ 0) :
    searchAndRespond db (Except.ok []) gen email query limit "keyword" =
      Except.ok { query := query, search_type := "keyword",
                  documents_found := (keywordSearch db email query limit).length,
                  relevant_documents := (keywordSearch db email query limit).map summarize,
                  ai_response := generateAiResponse gen query (keywordSearch db email query limit) } ∧
    keywordSearch db email query 0 = [] ∧
    postLimitOrDefault none = 10 := by
  refine ⟨rfl, ?_, rfl⟩
  unfold keywordSearch searchDocuments
  cases hf : findUserId db email with
  | none => rfl
  | some uid =>
    dsimp only
    unfold pyTake
    rw [if_pos (by norm_num)]
    rfl

/-- Witness for C7 (amended) at limit `-5`. -/
theorem limit_not_validated_witness :
    (-5 : Int) ≤ 0 ∧
    (searchAndRespond dbTwoNotes (Except.ok []) genAns "u@x.com" "budget" (-5) "keyword" =
       Except.ok { query := "budget", search_type := "keyword",
                   documents_found := (keywordSearch dbTwoNotes "u@x.com" "budget" (-5)).length,
                   relevant_documents :=
                     (keywordSearch dbTwoNotes "u@x.com" "budget" (-5)).map summarize,
                   ai_response :=
                     generateAiResponse genAns "budget"
                       (keywordSearch dbTwoNotes "u@x.com" "budget" (-5)) } ∧
     keywordSearch dbTwoNotes "u@x.com" "budget" 0 = [] ∧
     postLimitOrDefault none = 10) :=
  ⟨by norm_num,
   limit_not_validated dbTwoNotes genAns "u@x.com" "budget" (-5) (by norm_num)⟩
